import Mathlib

/-!
Shallow embedding of the cinecalidad-stremio-addon core (identifier
resolution, release matching, metadata normalization, caching, stream
projection) and proofs about it.  Each definition is translated from the
JavaScript source file named in its doc comment.
-/

set_option maxHeartbeats 1000000

namespace Cinecalidad

/-! ## JavaScript primitives -/

/-- ASCII whitespace characters matched by the JS regex class `\s`
(restricted to the ASCII range, which is all that slug ids contain). -/
def jsIsSpace (c : Char) : Bool :=
  c = ' ' || c = '\t' || c = '\n' || c = '\r' || c = '\x0b' || c = '\x0c'

/-- `Math.round`: round half away from zero toward +infinity
(`Math.round(x) = floor(x + 0.5)`), on exact rationals. -/
def jsRound (q : ℚ) : ℤ := ⌊q + 1/2⌋

/-- JS `String.prototype.includes`: `listIncludes needle haystack` is true
iff `needle` occurs contiguously inside `haystack`. -/
def listIncludes : List Char → List Char → Bool
  | needle, [] => needle.isEmpty
  | needle, c :: t => needle.isPrefixOf (c :: t) || listIncludes needle t

/-! ## Release matcher
`src/src/handlers/MetaHandler.js`, `_findMatchingRelease` (lines 410-486). -/

/-- A Release record as produced by the release lister
(`src/src/handlers/MetaHandler.js` consumers; data model in the scraper).
Only the fields the handlers read are kept. -/
structure Release where
  id : String
  title : Option String := none
  originalTitle : Option String := none
  poster : Option String := none
  year : Option String := none
  category : Option String := none
  quality : Option String := none
  size : Option ℚ := none
  detailsLink : String := ""
  imdbId : Option String := none
  deriving Repr, DecidableEq

/-- `const normalizeId = (id) => id.toLowerCase().replace(/[-\s_]/g, "")`
(MetaHandler.js line 439). -/
def normalizeId (s : String) : List Char :=
  (s.data.map Char.toLower).filter (fun c => !(c = '-' || jsIsSpace c || c = '_'))

/-- The fuzzy-match predicate of `_findMatchingRelease`
(MetaHandler.js lines 446-470): skip releases without an id
(`if (!r.id) return false`; the only falsy string is `""`), then compare
normalized prefixes of length `minLength` and check substring containment. -/
def fuzzyMatches (targetId : String) (r : Release) : Bool :=
  if r.id = "" then false
  else
    let normalizedTarget := normalizeId targetId
    let normalizedRelease := normalizeId r.id
    let minLength := min 15 (min normalizedTarget.length normalizedRelease.length)
    let targetSubstring := normalizedTarget.take minLength
    let releaseSubstring := normalizedRelease.take minLength
    let match1 := targetSubstring == releaseSubstring
    let match2 := listIncludes (normalizedTarget.take minLength) normalizedRelease
    match1 || match2

/-- `_findMatchingRelease(releases, targetId)` (MetaHandler.js lines 410-486):
exact `release.id === targetId` first, otherwise (for a non-empty list)
the first release satisfying the fuzzy predicate; `undefined` becomes `none`. -/
def findMatchingRelease (releases : List Release) (targetId : String) : Option Release :=
  match releases.find? (fun r => r.id == targetId) with
  | some r => some r
  | none =>
    if releases.length > 0 then
      releases.find? (fuzzyMatches targetId)
    else
      none

/-- Modelled from the claim's wording for the release matcher: exact id match
first, otherwise normalize both ids, take
`minLength = min(15, len(normTarget), len(normCandidate))` and return the
first candidate whose normalized prefix equals the target's or which contains
the target's first `minLength` characters; `none` if the list is empty or no
candidate qualifies. -/
def matchSpec (releases : List Release) (targetId : String) : Option Release :=
  match releases.find? (fun r => r.id == targetId) with
  | some r => some r
  | none =>
      releases.find? (fun r =>
        let nt := normalizeId targetId
        let nc := normalizeId r.id
        let minLength := min 15 (min nt.length nc.length)
        (nt.take minLength == nc.take minLength) || listIncludes (nt.take minLength) nc)

/-! ## Metadata builder
`src/src/services/MetadataBuilder.js`. -/

/-- JS `String.prototype.trim` (ASCII whitespace; the slugs and titles in
play are ASCII). -/
def jsTrim (s : String) : String :=
  String.mk (((s.data.dropWhile jsIsSpace).reverse.dropWhile jsIsSpace).reverse)

/-- A JS value that is either a string or a number, as found in loosely
shaped fields like `year` (the site yields strings, the metadata provider
numbers). -/
inductive JNumStr where
  | str (s : String)
  | num (q : ℚ)
  deriving Repr, DecidableEq

/-- A JS value that is either an array of strings or a single
comma-separated string (`cast`, `director`, `writer` inputs). -/
inductive StrOrList where
  | arr (l : List String)
  | str (s : String)
  deriving Repr, DecidableEq

/-- Decimal digit run to a natural number. -/
def digitsToNat (l : List Char) : ℕ :=
  l.foldl (fun a c => a * 10 + (c.toNat - 48)) 0

/-- JS `parseInt(s, 10)`: skip leading whitespace, optional sign, then the
longest digit prefix; `none` models `NaN`. -/
def parseIntDec (s : String) : Option ℤ :=
  let l := s.data.dropWhile jsIsSpace
  let (sign, l) : ℤ × List Char :=
    match l with
    | '-' :: t => (-1, t)
    | '+' :: t => (1, t)
    | _ => (1, l)
  let ds := l.takeWhile Char.isDigit
  if ds.isEmpty then none else some (sign * (digitsToNat ds : ℤ))

/-- Powers of ten as rationals, written so that the kernel evaluates them
through accelerated `ℕ` arithmetic. -/
def qPowTen : ℤ → ℚ
  | .ofNat n => ((10 ^ n : ℕ) : ℚ)
  | .negSucc n => 1 / ((10 ^ (n + 1) : ℕ) : ℚ)

/-- The syntactic pieces of a JS float literal prefix: sign, integer
digits, fractional digits, exponent. -/
structure FloatParts where
  sign : ℤ
  intDigits : List Char
  fracDigits : List Char
  exp : ℤ
  deriving Repr, DecidableEq

/-- The scanning half of JS `parseFloat(s)`: skip leading whitespace,
optional sign, decimal digits with optional fraction, optional exponent;
the longest valid prefix wins and `none` models `NaN`. -/
def parseFloatParts (s : String) : Option FloatParts :=
  let l := s.data.dropWhile jsIsSpace
  let (sign, l) : ℤ × List Char :=
    match l with
    | '-' :: t => (-1, t)
    | '+' :: t => (1, t)
    | _ => (1, l)
  let intDigits := l.takeWhile Char.isDigit
  let l2 := l.dropWhile Char.isDigit
  let (fracDigits, l3) : List Char × List Char :=
    match l2 with
    | '.' :: t => (t.takeWhile Char.isDigit, t.dropWhile Char.isDigit)
    | _ => ([], l2)
  if intDigits.isEmpty && fracDigits.isEmpty then none
  else
    let exp : ℤ :=
      match l3 with
      | e :: t =>
          if e = 'e' || e = 'E' then
            let (esign, t2) : ℤ × List Char :=
              match t with
              | '-' :: u => (-1, u)
              | '+' :: u => (1, u)
              | _ => (1, t)
            let ed := t2.takeWhile Char.isDigit
            if ed.isEmpty then 0 else esign * (digitsToNat ed : ℤ)
          else 0
      | [] => 0
    some { sign := sign, intDigits := intDigits, fracDigits := fracDigits, exp := exp }

/-- Numeric value of the scanned pieces:
`sign * (int + frac / 10^|frac|) * 10^exp`. -/
def partsToRat (p : FloatParts) : ℚ :=
  (p.sign : ℚ)
    * ((digitsToNat p.intDigits : ℚ)
        + (digitsToNat p.fracDigits : ℚ) / ((10 ^ p.fracDigits.length : ℕ) : ℚ))
    * qPowTen p.exp

/-- JS `parseFloat(s)` on exact rationals (the `Infinity` literal, not
representable in `ℚ`, is mapped to `none`; it would be rejected by every
range check in this code base anyway). -/
def parseFloatJs (s : String) : Option ℚ :=
  (parseFloatParts s).map partsToRat

/-- JS `a || b` on optional strings, where `""` is falsy. -/
def jsOrStr (a b : Option String) : Option String :=
  match a with
  | some s => if s = "" then b else some s
  | none => b

/-- JS `String.prototype.split(sep)` for a one-character separator
(`"".split(",") = [""]`). -/
def jsSplitOn (sep : Char) : List Char → List String :=
  go []
where
  go : List Char → List Char → List String
  | acc, [] => [String.mk acc.reverse]
  | acc, c :: t => if c = sep then String.mk acc.reverse :: go [] t else go (c :: acc) t

/-- A rating input value: a JS number, a string, or anything else that
coerces to `NaN` (`other`); `_parseRating` receives it through the loosely
typed `imdbRating` field. -/
inductive RatingIn where
  | num (q : ℚ)
  | str (s : String)
  | other
  deriving Repr, DecidableEq

/-- An ExternalMetadata record as returned by the metadata provider
(`src/lib/metadata.js` collaborator; loosely shaped fields are modelled by
the unions above).  `imdb` is the extra field read by `_getBingeGroupId`. -/
structure ExternalMeta where
  title : Option String := none
  originalTitle : Option String := none
  year : Option JNumStr := none
  poster : Option String := none
  background : Option String := none
  description : Option String := none
  genres : Option (List String) := none
  cast : Option StrOrList := none
  director : Option StrOrList := none
  writer : Option StrOrList := none
  imdbRating : Option RatingIn := none
  imdb : Option String := none
  deriving Repr, DecidableEq

/-- `_selectBestTitle(...titles)` (MetadataBuilder.js lines 184-199):
keep candidates that are truthy strings with non-empty trim, prefer the
first one without a `"("`, else the first valid one, else
`"Unknown Title"`; the winner is trimmed. -/
def selectBestTitle (titles : List (Option String)) : String :=
  let validTitles := titles.filterMap (fun t =>
    match t with
    | some s => if s ≠ "" && jsTrim s ≠ "" then some s else none
    | none => none)
  if validTitles.length = 0 then "Unknown Title"
  else
    let nonParenTitles := validTitles.filter (fun t => !(t.data.contains '('))
    jsTrim (if nonParenTitles.length > 0 then nonParenTitles.headD "" else validTitles.headD "")

/-- Modelled from the claim's wording for canonical name selection: accept
only non-empty trimmed candidate strings, prefer a title without a
parenthetical substring, fall back to the first valid candidate when all
contain parentheses, and use `"Unknown Title"` when no valid candidate
exists. -/
def selectBestTitleSpec (titles : List (Option String)) : String :=
  let valid := titles.filterMap (fun t =>
    t.bind (fun s => if jsTrim s ≠ "" then some s else none))
  match valid.filter (fun t => !(t.data.contains '(')) with
  | w :: _ => jsTrim w
  | [] =>
      match valid with
      | [] => "Unknown Title"
      | v :: _ => jsTrim v

/-- The selection step of `_selectBestTitle` on an already-filtered valid
list (let-free restatement used in proofs; definitionally equal to the body
of `selectBestTitle`). -/
def selectCore (L : List String) : String :=
  if L.length = 0 then "Unknown Title"
  else jsTrim (if (L.filter (fun t => !(t.data.contains '('))).length > 0
    then (L.filter (fun t => !(t.data.contains '('))).headD ""
    else L.headD "")

/-- The selection step of `selectBestTitleSpec` on an already-filtered valid
list. -/
def selectSpecCore (L : List String) : String :=
  match L.filter (fun t => !(t.data.contains '(')) with
  | w :: _ => jsTrim w
  | [] =>
      match L with
      | [] => "Unknown Title"
      | v :: _ => jsTrim v

/-- `_validateAndCleanUrl(url)` (MetadataBuilder.js lines 206-218); the
WHATWG `new URL` parse done by `validateUrl` is abstracted as the predicate
`urlOk` (scheme/url well-formedness is an external library concern). -/
def validateAndCleanUrl (urlOk : String → Bool) (url : Option String) : Option String :=
  match url with
  | none => none
  | some u =>
      if u = "" then none
      else
        let cleaned := jsTrim u
        if urlOk cleaned then some cleaned else none

/-- `_parseYear(year)` (MetadataBuilder.js lines 225-239): falsy input is
absent, strings go through `parseInt`, and the value is kept only within
`[1900, currentYear + 5]`. -/
def parseYear (currentYear : ℤ) (year : Option JNumStr) : Option ℚ :=
  match year with
  | none => none
  | some y =>
      let falsy : Bool := match y with
        | .str s => s == ""
        | .num q => decide (q = 0)
      if falsy then none
      else
        let parsed : Option ℚ := match y with
          | .str s => (parseIntDec s).map (fun n => (n : ℚ))
          | .num q => some q
        match parsed with
        | none => none
        | some p => if p < 1900 ∨ p > (currentYear : ℚ) + 5 then none else some p

/-- Collapse runs of (already space-mapped) spaces, the second half of
JS `replace(/\s+/g, " ")`. -/
def dedupSpaces : List Char → List Char
  | [] => []
  | [c] => [c]
  | a :: b :: t =>
      if a = ' ' && b = ' ' then dedupSpaces (b :: t) else a :: dedupSpaces (b :: t)

/-- JS `replace(/\s+/g, " ")`: every whitespace run becomes one space. -/
def collapseWs (l : List Char) : List Char :=
  dedupSpaces (l.map (fun c => if jsIsSpace c then ' ' else c))

/-- `_cleanDescription(description)` (MetadataBuilder.js lines 246-257). -/
def cleanDescription (description : Option String) : Option String :=
  match description with
  | none => none
  | some d =>
      if d = "" then none
      else
        let cleaned := String.mk ((collapseWs (jsTrim d).data).take 1000)
        if cleaned.length > 10 then some cleaned else none

/-- Digits of a natural number (fuel-based so that it reduces in the
kernel), for rendering sizes the way JS stringifies small decimals. -/
def natToDigits (n : ℕ) : List Char :=
  go n n
where
  go : ℕ → ℕ → List Char
  | _, 0 => ['0']
  | 0, _ => []
  | fuel + 1, m =>
      if m < 10 then [Char.ofNat (48 + m)]
      else go fuel (m / 10) ++ [Char.ofNat (48 + m % 10)]

/-- Render a quantity `x100 / 100` (a value rounded to two decimals) the
way JS number-to-string prints it: no trailing zeros, no decimal point for
integers. -/
def renderHundredths (x100 : ℕ) : String :=
  let intPart := natToDigits (x100 / 100)
  let frac := x100 % 100
  if frac = 0 then String.mk intPart
  else if frac % 10 = 0 then String.mk (intPart ++ ['.'] ++ natToDigits (frac / 10))
  else String.mk (intPart ++ ['.'] ++ (if frac < 10 then ['0'] else []) ++ natToDigits frac)

/-- The fallback branch of `_buildDescription` (MetadataBuilder.js lines
272-282): synthesize a Spanish quality/size blurb from the release, with
the size in GB rounded to two decimals
(`Math.round((size / 1024 / 1024 / 1024) * 100) / 100`).  Sizes are taken
non-negative, as in every release record of the site. -/
def buildDescriptionFallback (release : Release) : Option String :=
  match release.quality with
  | none => none
  | some q =>
      if q = "" then none
      else
        let base := "Película disponible en calidad " ++ q
        match release.size with
        | none => some base
        | some sz =>
            if sz = 0 then some base
            else
              let x100 := (jsRound (sz / 1024 / 1024 / 1024 * 100)).toNat
              some (base ++ " | Tamaño: " ++ renderHundredths x100 ++ "GB")

/-- `_buildDescription(externalMeta, release)` (MetadataBuilder.js lines
265-285): prefer the external description, else synthesize from quality and
size. -/
def buildDescription (externalMeta : Option ExternalMeta) (release : Release) :
    Option String :=
  match externalMeta >>= fun em => em.description with
  | some d =>
      if d = "" then buildDescriptionFallback release else cleanDescription (some d)
  | none => buildDescriptionFallback release

/-- `_normalizeGenres(genres)` (MetadataBuilder.js lines 292-303); `[]`
stands for an absent field (what `_cleanMetadata` strips). -/
def normalizeGenres (genres : Option (List String)) : List String :=
  match genres with
  | none => []
  | some gs => (((gs.filter (fun g => g ≠ "")).map jsTrim).filter (fun g => g.length > 0)).take 10

/-- `_normalizeCast(cast)` (MetadataBuilder.js lines 310-325). -/
def normalizeCast (cast : Option StrOrList) : List String :=
  match cast with
  | none => []
  | some (.str "") => []
  | some c =>
      let normalized := match c with
        | .arr l => l
        | .str s => jsSplitOn ',' s.data
      (((normalized.map jsTrim).filter (fun x => x.length > 0))).take 8

/-- `_normalizeDirector(director)` (MetadataBuilder.js lines 332-349);
note the array branch does not re-filter entries that trim to empty. -/
def normalizeDirector (director : Option StrOrList) : List String :=
  match director with
  | none => []
  | some (.arr l) => (((l.filter (fun d => d ≠ "")).map jsTrim)).take 3
  | some (.str s) =>
      if s = "" then []
      else
        let trimmed := jsTrim s
        if trimmed.length > 0 then [trimmed] else []

/-- `_normalizeWriter(writer)` = `_normalizeDirector` (line 357). -/
def normalizeWriter (writer : Option StrOrList) : List String :=
  normalizeDirector writer

/-- `_parseRating(rating)` (MetadataBuilder.js lines 365-375): falsy input
(absent, `0`, `""`) is dropped, strings go through `parseFloat`, the value
is kept only within `[0, 10]` and rounded to one decimal
(`Math.round(parsed * 10) / 10`). -/
def parseRating (rating : Option RatingIn) : Option ℚ :=
  match rating with
  | none => none
  | some r =>
      let falsy : Bool := match r with
        | .num q => decide (q = 0)
        | .str s => s == ""
        | .other => false
      if falsy then none
      else
        let parsed : Option ℚ := match r with
          | .num q => some q
          | .str s => parseFloatJs s
          | .other => none
        match parsed with
        | none => none
        | some p => if p < 0 ∨ p > 10 then none else some ((jsRound (p * 10) : ℚ) / 10)

/-- `_buildReleaseInfo(release)` (MetadataBuilder.js lines 382-386). -/
def buildReleaseInfo (release : Release) : Option String :=
  match release.quality with
  | some q => if q = "" then none else some q
  | none => none

/-- A `{name, url}` download link scraped from a detail page. -/
structure DownloadLink where
  name : Option String := none
  url : Option String := none
  deriving Repr, DecidableEq

/-- A MovieDetails record scraped from a release's detail page
(`downloadLinks` may mix magnet and direct links; `externalMeta` is the
enrichment written by `StreamHandler._enrichWithExternalMetadata`). -/
structure MovieDetails where
  id : Option String := none
  imdbId : Option String := none
  title : Option String := none
  year : Option JNumStr := none
  downloadLinks : List DownloadLink := []
  externalMeta : Option ExternalMeta := none
  deriving Repr, DecidableEq

/-- The protocol-facing CanonicalMeta record built by the MetadataBuilder.
In this embedding an absent field is `none` (scalars) or `[]` (arrays), so
the source's final `_cleanMetadata` pass — which strips `null`/`undefined`
values and empty arrays from the emitted object — is the identity and is
not re-applied. -/
structure CanonicalMeta where
  id : String
  type : String := "movie"
  name : String
  poster : Option String := none
  background : Option String := none
  year : Option ℚ := none
  description : Option String := none
  genres : List String := []
  cast : List String := []
  director : List String := []
  writer : List String := []
  imdbRating : Option ℚ := none
  imdbId : Option String := none
  releaseInfo : Option String := none
  deriving Repr, DecidableEq

/-- The dynamic value stored in a persisted MovieRecord's `meta` field:
`_saveScrapedMovie`/`_saveBuildMetadata` store a `{meta: canonicalMeta}`
wrapper (`box`), while other writers (e.g. the repository's own tests) store
a bare CanonicalMeta (`canon`).  `_getCatalogMovie` inspects `.meta?.meta`,
which distinguishes the two. -/
inductive StoredMeta where
  | box (inner : Option CanonicalMeta)
  | canon (m : CanonicalMeta)
  deriving Repr, DecidableEq

/-- A persisted MovieRecord (`movies` table row, JSON-decoded):
`{release?, movieDetails?, externalMeta?, meta?, lastUpdated?}`. -/
structure MovieData where
  release : Option Release := none
  movieDetails : Option MovieDetails := none
  externalMeta : Option ExternalMeta := none
  meta : Option StoredMeta := none
  lastUpdated : Option String := none
  deriving Repr, DecidableEq

/-- JS `a || b` on optional string-or-number values (`0` and `""` falsy),
as used for `externalMeta?.year || release.year`. -/
def jsOrNumStr (a b : Option JNumStr) : Option JNumStr :=
  match a with
  | some (.str s) => if s = "" then b else some (.str s)
  | some (.num q) => if q = 0 then b else some (.num q)
  | none => b

/-- `buildFromIMDB(id, metadata)` (MetadataBuilder.js lines 21-59). -/
def buildFromIMDB (urlOk : String → Bool) (currentYear : ℤ) (id : String)
    (metadata : ExternalMeta) : CanonicalMeta :=
  { id := id
    type := "movie"
    name := selectBestTitle [metadata.originalTitle, metadata.title]
    poster := validateAndCleanUrl urlOk metadata.poster
    background := validateAndCleanUrl urlOk (jsOrStr metadata.background metadata.poster)
    year := parseYear currentYear metadata.year
    description := cleanDescription metadata.description
    genres := normalizeGenres metadata.genres
    cast := normalizeCast metadata.cast
    director := normalizeDirector metadata.director
    writer := normalizeWriter metadata.writer
    imdbRating := parseRating metadata.imdbRating
    imdbId := some id
    releaseInfo := none }

/-- The shared body of `buildFromCatalogData` (MetadataBuilder.js lines
67-121) and `buildFromScrapedData` (lines 128-177), whose field-by-field
merge logic is identical. -/
def mergedMetaCore (urlOk : String → Bool) (currentYear : ℤ) (release : Release)
    (movieDetails : Option MovieDetails) (externalMeta : Option ExternalMeta)
    (id : String) : CanonicalMeta :=
  { id := id
    type := "movie"
    name := selectBestTitle
      [externalMeta >>= (·.originalTitle), externalMeta >>= (·.title),
       release.originalTitle, release.title]
    poster := validateAndCleanUrl urlOk
      (jsOrStr (externalMeta >>= (·.poster)) release.poster)
    background := validateAndCleanUrl urlOk
      (jsOrStr (externalMeta >>= (·.background))
        (jsOrStr (externalMeta >>= (·.poster)) release.poster))
    year := parseYear currentYear
      (jsOrNumStr (externalMeta >>= (·.year)) (release.year.map JNumStr.str))
    description := buildDescription externalMeta release
    genres := normalizeGenres
      (match externalMeta >>= (·.genres) with
       | some g => some g
       | none =>
           match release.category with
           | some c => if c = "" then none else some [c]
           | none => none)
    cast := normalizeCast (externalMeta >>= (·.cast))
    director := normalizeDirector (externalMeta >>= (·.director))
    writer := normalizeWriter (externalMeta >>= (·.writer))
    imdbRating := parseRating (externalMeta >>= (·.imdbRating))
    imdbId := movieDetails >>= (·.imdbId)
    releaseInfo := buildReleaseInfo release }

/-- `buildFromCatalogData(catalogData, id)` (MetadataBuilder.js lines
67-121); `none` models the thrown `"No release data in catalog"`. -/
def buildFromCatalogData (urlOk : String → Bool) (currentYear : ℤ)
    (catalogData : MovieData) (id : String) : Option CanonicalMeta :=
  match catalogData.release with
  | none => none
  | some release =>
      some (mergedMetaCore urlOk currentYear release catalogData.movieDetails
        catalogData.externalMeta id)

/-- `buildFromScrapedData({release, movieDetails, externalMeta, id})`
(MetadataBuilder.js lines 128-177). -/
def buildFromScrapedData (urlOk : String → Bool) (currentYear : ℤ)
    (release : Release) (movieDetails : Option MovieDetails)
    (externalMeta : Option ExternalMeta) (id : String) : CanonicalMeta :=
  mergedMetaCore urlOk currentYear release movieDetails externalMeta id

/-! ## Persisted generic cache
`src/lib/database.js`, `setCache`/`getCache`/`clearExpiredCache`
(lines 175-245), as driven by `CacheService` (`src/src/services/CacheService.js`). -/

/-- Byte-wise text comparison (SQLite BINARY collation), used when the
`cache.expires_at` TEXT column is compared against `CURRENT_TIMESTAMP`. -/
def sqliteTextLt : List Char → List Char → Bool
  | [], [] => false
  | [], _ :: _ => true
  | _ :: _, [] => false
  | a :: as, b :: bs =>
      if a.val < b.val then true
      else if b.val < a.val then false
      else sqliteTextLt as bs

/-- A calendar instant (UTC). -/
structure DateTime where
  year : ℕ
  month : ℕ
  day : ℕ
  hour : ℕ
  minute : ℕ
  second : ℕ
  ms : ℕ
  deriving Repr, DecidableEq

/-- Proleptic-Gregorian civil date from a day count since 1970-01-01
(the standard era-based algorithm). -/
def civilFromDays (z0 : ℕ) : ℕ × ℕ × ℕ :=
  let z := z0 + 719468
  let era := z / 146097
  let doe := z % 146097
  let yoe := (doe - doe / 1460 + doe / 36524 - doe / 146097) / 365
  let y := yoe + era * 400
  let doy := doe - (365 * yoe + yoe / 4 - yoe / 100)
  let mp := (5 * doy + 2) / 153
  let d := doy - (153 * mp + 2) / 5 + 1
  let m := if mp < 10 then mp + 3 else mp - 9
  (if m ≤ 2 then y + 1 else y, m, d)

/-- Split epoch milliseconds (`Date.now()` style) into a UTC instant. -/
def epochToDateTime (ms : ℕ) : DateTime :=
  let days := ms / 86400000
  let rem := ms % 86400000
  let ymd := civilFromDays days
  { year := ymd.1
    month := ymd.2.1
    day := ymd.2.2
    hour := rem / 3600000
    minute := rem % 3600000 / 60000
    second := rem % 60000 / 1000
    ms := rem % 1000 }

/-- Zero-padded decimal rendering. -/
def padNat (width n : ℕ) : List Char :=
  let ds := natToDigits n
  List.replicate (width - ds.length) '0' ++ ds

/-- JS `new Date(ms).toISOString()`: `YYYY-MM-DDTHH:MM:SS.mmmZ` (UTC), the
format `setCache` stores into `expires_at`. -/
def toISOString (ms : ℕ) : String :=
  let dt := epochToDateTime ms
  String.mk (padNat 4 dt.year ++ ['-'] ++ padNat 2 dt.month ++ ['-'] ++ padNat 2 dt.day
    ++ ['T'] ++ padNat 2 dt.hour ++ [':'] ++ padNat 2 dt.minute ++ [':']
    ++ padNat 2 dt.second ++ ['.'] ++ padNat 3 dt.ms ++ ['Z'])

/-- SQLite `CURRENT_TIMESTAMP`: `YYYY-MM-DD HH:MM:SS` (UTC), the value
`getCache`'s `WHERE ... expires_at > CURRENT_TIMESTAMP` compares against. -/
def sqliteCurrentTimestamp (ms : ℕ) : String :=
  let dt := epochToDateTime ms
  String.mk (padNat 4 dt.year ++ ['-'] ++ padNat 2 dt.month ++ ['-'] ++ padNat 2 dt.day
    ++ [' '] ++ padNat 2 dt.hour ++ [':'] ++ padNat 2 dt.minute ++ [':']
    ++ padNat 2 dt.second)

/-- A row of the `cache` table. -/
structure CacheRow (α : Type) where
  key : String
  value : α
  expiresAt : String
  deriving Repr, DecidableEq

/-- `setCache(key, data, ttlMinutes)` (database.js lines 175-194):
`INSERT OR REPLACE` with
`expires_at = new Date(Date.now() + ttlMinutes * 60 * 1000).toISOString()`. -/
def setCache {α : Type} (store : List (CacheRow α)) (key : String) (v : α)
    (ttlMinutes : ℕ) (nowMs : ℕ) : List (CacheRow α) :=
  { key := key, value := v, expiresAt := toISOString (nowMs + ttlMinutes * 60 * 1000) }
    :: store.filter (fun r => r.key ≠ key)

/-- `getCache(key)` (database.js lines 196-215):
`SELECT data FROM cache WHERE key = ? AND expires_at > CURRENT_TIMESTAMP`. -/
def getCache {α : Type} (store : List (CacheRow α)) (key : String) (nowMs : ℕ) :
    Option α :=
  match store.find? (fun r =>
      r.key == key && sqliteTextLt (sqliteCurrentTimestamp nowMs).data r.expiresAt.data) with
  | some r => some r.value
  | none => none

/-- `clearExpiredCache()` (database.js lines 230-245):
`DELETE FROM cache WHERE expires_at <= CURRENT_TIMESTAMP`. -/
def clearExpiredCache {α : Type} (store : List (CacheRow α)) (nowMs : ℕ) :
    List (CacheRow α) :=
  store.filter (fun r => sqliteTextLt (sqliteCurrentTimestamp nowMs).data r.expiresAt.data)

/-! ## Validators
`src/src/lib/validators.js` (bundled after `errors.js` in the sources). -/

/-- `String.prototype.startsWith`, written on character lists so that the
kernel can evaluate it. -/
def strStartsWith (s pre : String) : Bool :=
  pre.data.isPrefixOf s.data

/-- JS `s.replace(needle, "")` for a plain (non-regex) needle: remove the
first occurrence only. -/
def jsReplaceOnce (needle : String) (s : String) : String :=
  String.mk (go s.data)
where
  go : List Char → List Char
  | [] => []
  | c :: t =>
      if needle.data.isPrefixOf (c :: t) then (c :: t).drop needle.data.length
      else c :: go t

/-- `validateMovieId(id)` (validators.js lines 248-265):
`^tt\d{7,}$` or `cc_` + non-empty `[a-z0-9-]+`. -/
def validateMovieId (id : String) : Bool :=
  if id = "" then false
  else if strStartsWith id "tt" then
    let rest := id.data.drop 2
    decide (rest.length ≥ 7) && rest.all Char.isDigit
  else if strStartsWith id "cc_" then
    let movieId := id.data.drop 3
    movieId.all (fun c => ('a' ≤ c && c ≤ 'z') || ('0' ≤ c && c ≤ '9') || c = '-')
      && decide (movieId.length > 0)
  else false

/-- `sanitizeId(id)` (validators.js lines 272-289): trim, strip
`[<>'"&]`, keep printable ASCII, cap at 100 chars; `.error` models the
thrown `ValidationError`. -/
def sanitizeId (id : String) : Except Unit String :=
  if id = "" then .error ()
  else
    let sanitized := String.mk
      ((((jsTrim id).data.filter
          (fun c => !(c = '<' || c = '>' || c.toNat = 39 || c = '"' || c = '&'))).filter
        (fun c => 0x20 ≤ c.toNat && c.toNat ≤ 0x7e)).take 100)
    if sanitized = "" then .error () else .ok sanitized

/-! ## Torrent-to-stream projection
`src/unnamed/part_004` (`TorrentInfoService`) and the stream handler
(second half of `src/src/handlers/MetaHandler.js`). -/

/-- A file inside a torrent, as reported by the torrent inspector. -/
structure TorrentFile where
  name : String
  size : Option ℚ := none
  index : ℕ := 0
  sizeFormatted : String := ""
  deriving Repr, DecidableEq

/-- The torrent record built by `_fetchTorrentInfo` (part_004 lines
92-122) and stored in the `torrents` table (`hash` is the info-hash). -/
structure MagnetInfo where
  displayName : String := ""
  fileSize : String := ""
  totalSize : Option ℚ := none
  quality : Option String := none
  source : Option String := none
  codec : Option String := none
  group : Option String := none
  language : String := ""
  hash : String := ""
  trackers : List String := []
  fileCount : ℕ := 0
  files : List TorrentFile := []
  mainVideoFile : Option TorrentFile := none
  deriving Repr, DecidableEq

/-- The raw result of `torrentParserService.getTorrentInfo(magnetUri)`
(collaborator contract). -/
structure RawTorrent where
  name : String := ""
  totalSizeFormatted : String := ""
  totalSize : Option ℚ := none
  quality : Option String := none
  source : Option String := none
  codec : Option String := none
  group : Option String := none
  language : String := ""
  infoHash : String := ""
  trackers : List String := []
  fileCount : ℕ := 0
  files : List TorrentFile := []
  mainVideoFile : Option TorrentFile := none
  deriving Repr, DecidableEq

/-- The field mapping of `_fetchTorrentInfo` (part_004 lines 102-117). -/
def mapRawTorrent (t : RawTorrent) : MagnetInfo :=
  { displayName := t.name
    fileSize := t.totalSizeFormatted
    totalSize := t.totalSize
    quality := t.quality
    source := t.source
    codec := t.codec
    group := t.group
    language := t.language
    hash := t.infoHash
    trackers := t.trackers
    fileCount := t.fileCount
    files := t.files
    mainVideoFile := t.mainVideoFile }

/-- `SUPPORTED_VIDEO_EXTENSIONS` (part_004 lines 23-32). -/
def SUPPORTED_VIDEO_EXTENSIONS : List String :=
  ["mp4", "mkv", "avi", "mov", "wmv", "flv", "m4v", "webm"]

/-- `COUNTRY_WHITELIST` (part_004 lines 33-45). -/
def COUNTRY_WHITELIST : List String :=
  ["MX", "ES", "AR", "CO", "PE", "CL", "VE", "EC", "BO", "PY", "UY"]

/-- `file.name.toLowerCase().split(".").pop()` (part_004 line 151). -/
def fileExt (name : String) : String :=
  (jsSplitOn '.' (name.data.map Char.toLower)).getLastD ""

/-- The video-extension filter of `_createMultiFileStreams`
(part_004 lines 150-153). -/
def isVideoFile (f : TorrentFile) : Bool :=
  SUPPORTED_VIDEO_EXTENSIONS.contains (fileExt f.name)

/-- A StreamDescriptor as emitted to the player.  `behaviorHints` is
flattened into `bingeGroup` and `countryWhitelist`. -/
structure StreamDesc where
  name : String := ""
  title : Option String := none
  description : Option String := none
  infoHash : Option String := none
  fileIdx : Option ℕ := none
  externalUrl : Option String := none
  sources : Option (List String) := none
  videoSize : Option ℚ := none
  filename : Option String := none
  bingeGroup : String := ""
  countryWhitelist : List String := []
  deriving Repr, DecidableEq

/-- `_generateStreamInfo(magnetInfo)` (part_004 lines 231-238). -/
structure StreamInfoParts where
  quality : String
  srcTag : String
  codecTag : String
  groupTag : String

/-- `_generateStreamInfo` field defaults (`quality || "Unknown"`, optional
` source`, ` codec`, ` - group` tags; `""` is falsy). -/
def generateStreamInfo (m : MagnetInfo) : StreamInfoParts :=
  { quality := match m.quality with
      | some q => if q = "" then "Unknown" else q
      | none => "Unknown"
    srcTag := match m.source with
      | some s => if s = "" then "" else " " ++ s
      | none => ""
    codecTag := match m.codec with
      | some c => if c = "" then "" else " " ++ c
      | none => ""
    groupTag := match m.group with
      | some g => if g = "" then "" else " - " ++ g
      | none => "" }

/-- `_prepareSources(trackers)` (part_004 lines 246-254). -/
def prepareSources (trackers : List String) : List String :=
  (trackers.filter (fun t => t ≠ "" && jsTrim t ≠ "")).map (fun t => "tracker:" ++ jsTrim t)

/-- `_getBingeGroupId(movieData, id)` (part_004 lines 263-269):
`externalMeta.imdb || movieDetails.imdbId || id`. -/
def getBingeGroupId (movieData : MovieData) (id : String) : String :=
  (jsOrStr ((movieData.movieDetails >>= (·.externalMeta)) >>= (·.imdb))
    (jsOrStr (movieData.movieDetails >>= (·.imdbId)) (some id))).getD id

/-- The per-video-file descriptor of `_createMultiFileStreams`
(part_004 lines 159-181). -/
def mkMultiFileStream (m : MagnetInfo) (bingeGroupId : String) (file : TorrentFile) :
    StreamDesc :=
  let si := generateStreamInfo m
  let sources := prepareSources m.trackers
  { name := "🎬 " ++ si.quality ++ si.srcTag ++ si.codecTag ++ " "
      ++ m.language ++ " | " ++ file.sizeFormatted ++ si.groupTag
    title := some (si.quality ++ si.srcTag ++ si.codecTag ++ " • "
      ++ m.language ++ " • " ++ file.sizeFormatted)
    description := some (file.name ++ " (" ++ file.sizeFormatted ++ ")")
    infoHash := some m.hash
    fileIdx := some file.index
    sources := if sources.length > 0 then some sources else none
    videoSize := match file.size with
      | some s => if s = 0 then none else some s
      | none => none
    filename := if file.name = "" then none else some file.name
    bingeGroup := "cinecalidad-" ++ bingeGroupId
    countryWhitelist := COUNTRY_WHITELIST }

/-- `_createSingleFileStream(magnetInfo, bingeGroupId)`
(part_004 lines 191-223). -/
def createSingleFileStream (m : MagnetInfo) (bingeGroupId : String) : List StreamDesc :=
  let si := generateStreamInfo m
  let sources := prepareSources m.trackers
  let streamDescription := match m.mainVideoFile with
    | some f => f.name ++ " (" ++ f.sizeFormatted ++ ")"
    | none => String.mk (m.displayName.data.take 50)
        ++ (if m.displayName.length > 50 then "..." else "")
  [{ name := "🎬 " ++ si.quality ++ si.srcTag ++ si.codecTag ++ " "
      ++ m.language ++ " | " ++ m.fileSize ++ si.groupTag
     title := some (si.quality ++ si.srcTag ++ si.codecTag ++ " • "
      ++ m.language ++ " • " ++ m.fileSize)
     description := some streamDescription
     infoHash := some m.hash
     fileIdx := some (match m.mainVideoFile with
       | some f => f.index
       | none => 0)
     sources := if sources.length > 0 then some sources else none
     videoSize := match m.mainVideoFile with
       | some f => f.size
       | none => m.totalSize
     filename := some (match m.mainVideoFile with
       | some f => f.name
       | none => m.displayName)
     bingeGroup := "cinecalidad-" ++ bingeGroupId
     countryWhitelist := COUNTRY_WHITELIST }]

/-- `_createMultiFileStreams(magnetInfo, bingeGroupId)`
(part_004 lines 149-182): one descriptor per video file, falling back to
the single-file strategy when no file passes the filter. -/
def createMultiFileStreams (m : MagnetInfo) (bingeGroupId : String) : List StreamDesc :=
  let videoFiles := m.files.filter isVideoFile
  if videoFiles.length = 0 then createSingleFileStream m bingeGroupId
  else videoFiles.map (mkMultiFileStream m bingeGroupId)

/-- `_createStreamsFromTorrent(magnetInfo, movieData, id)`
(part_004 lines 132-140). -/
def createStreamsFromTorrent (m : MagnetInfo) (movieData : MovieData) (id : String) :
    List StreamDesc :=
  let bingeGroupId := getBingeGroupId movieData id
  if m.files.length > 0 then createMultiFileStreams m bingeGroupId
  else createSingleFileStream m bingeGroupId

/-! ## Handler pipelines
`src/src/handlers/MetaHandler.js` (MetaHandler and StreamHandler) wired as
in `src/unnamed/part_005`.  Collaborators (release lister, metadata
provider, torrent inspector, persisted store reads, cache reads) and the
JS builtins `encodeURIComponent`/`decodeURIComponent`/`new URL` are
abstracted as an environment of total or `Except`-returning functions;
`Except.error` models a thrown/rejected call.  Side effects (collaborator
call counts, cache writes, store writes) are returned in an effect log. -/

/-- Error kinds (`src/src/lib/errors.js` `ErrorCodes`), restricted to the
codes these handlers produce. -/
inductive AppError where
  | invalidInput
  | invalidIdFormat
  | unsupportedIdType
  | externalService
  | scraping
  deriving Repr, DecidableEq

/-- `error.code` as logged/returned by `ErrorHandler.handle`. -/
def AppError.codeStr : AppError → String
  | .invalidInput => "INVALID_INPUT"
  | .invalidIdFormat => "INVALID_ID_FORMAT"
  | .unsupportedIdType => "UNSUPPORTED_ID_TYPE"
  | .externalService => "EXTERNAL_SERVICE_ERROR"
  | .scraping => "SCRAPING_ERROR"

/-- `AppError.isRetryable` (errors.js lines 37-46): of the codes above only
`EXTERNAL_SERVICE_ERROR` is in the retryable set. -/
def AppError.retryable : AppError → Bool
  | .externalService => true
  | _ => false

/-- A meta response `{meta: X}`: `none` is `{meta: null}`. -/
abbrev MetaResponse := Option StoredMeta

/-- A stream response `{streams: [...]}`. -/
abbrev StreamResponse := List StreamDesc

/-- The collaborators and ambient state a request sees.  Functions model:
`database.getMovie`/`findMovieByOriginalId`/`getTorrent` (which catch their
own errors and return `null`), `cacheService.get` (likewise),
`cineCalidadService.performQuery(search, skip, limit)` /
`getMovieDetails(detailsLink)`, `metadataService.getMovieMetadata({id})`,
`torrentParserService.getTorrentInfo(magnetUri)`, and the JS builtins. -/
structure Env where
  urlOk : String → Bool
  currentYear : ℤ
  nowIso : String
  dbMovies : String → Option MovieData
  dbFind : String → Option (String × MovieData)
  performQuery : String → ℕ → ℕ → Except Unit (List Release)
  getMovieDetails : String → Except Unit MovieDetails
  getMovieMetadata : String → Except Unit (Option ExternalMeta)
  metaCache : String → Option MetaResponse
  streamCache : String → Option StreamResponse
  dbTorrents : String → Option MagnetInfo
  getTorrentInfo : String → Except Unit (Option RawTorrent)
  encodeURIComponent : String → String
  decodeURIComponent : String → Option String

/-- Side effects of one meta request. -/
structure MetaEffects where
  queryCalls : ℕ := 0
  detailsCalls : ℕ := 0
  metadataCalls : ℕ := 0
  catalogScanCalls : ℕ := 0
  cacheWrites : List (String × MetaResponse) := []
  dbSaves : List (String × MovieData) := []
  deriving Repr, DecidableEq

/-- The dynamic shapes `_routeMetaRequest` can deliver to `handle`:
`wrapped v` is `{meta: v}` (from `_getSavedMovie`, `_getCatalogMovie`'s
build branch, `_scrapeMovie`); `bareBox m` is a stored `{meta: m}` wrapper
returned directly (`return catalogMovie.data.meta`); `canonObj m` is a bare
CanonicalMeta (from `buildFromIMDB`). -/
inductive RouteObj where
  | wrapped (v : StoredMeta)
  | bareBox (m : CanonicalMeta)
  | canonObj (m : CanonicalMeta)
  deriving Repr, DecidableEq

/-- `const meta = result.meta || result` (MetaHandler.js line 84) on the
shapes above; the result is never falsy. -/
def unwrapRoute : RouteObj → StoredMeta
  | .wrapped v => v
  | .bareBox m => .canon m
  | .canonObj m => .canon m

/-- `_getSavedMovie(id)` (MetaHandler.js lines 232-249): a record whose
`meta` field is present short-circuits as `{meta: savedMovie.meta}`;
database errors are caught and yield `null` (the store read is total
here). -/
def getSavedMovie (env : Env) (id : String) : Option RouteObj :=
  match env.dbMovies id with
  | some savedMovie =>
      match savedMovie.meta with
      | some v => some (.wrapped v)
      | none => none
  | none => none

/-- `_getCatalogMovie(movieId)` (MetaHandler.js lines 257-297); also
returns the `_saveBuildMetadata` writes.  Errors (including the builder's
missing-release throw) are caught and yield `null`. -/
def getCatalogMovie (env : Env) (movieId sanitizedId : String) :
    Option RouteObj × List (String × MovieData) :=
  match env.dbFind movieId with
  | none => (none, [])
  | some (_, data) =>
      match data.meta with
      | some (.box (some m)) => (some (.bareBox m), [])
      | _ =>
          match data.release with
          | some _ =>
              match buildFromCatalogData env.urlOk env.currentYear data sanitizedId with
              | some meta =>
                  (some (.wrapped (.canon meta)),
                    [(sanitizedId,
                      { data with meta := some (.box (some meta)),
                                  lastUpdated := some env.nowIso })])
              | none => (none, [])
          | none => (none, [])

/-- `_extractSearchTitle(movieId)` (MetaHandler.js lines 368-401): split on
`-`, strip trailing noise words (the list includes the mojibake spelling
`espaÃ±ol` exactly as in the source), and fall back to the first 70% of
tokens (at least one) when everything was stripped.
`Math.floor(parts.length * 0.7)` is modelled as `(parts.length * 7) / 10`;
the two agree because the double product `n * 0.7` never rounds across an
integer for list lengths in range. -/
def extractSearchTitle (movieId : String) : String :=
  let suffixes := ["online", "descarga", "descargar", "gratis", "hd", "full",
    "latino", "dual", "subtitulado", "espaÃ±ol", "spanish"]
  let parts := (jsSplitOn '-' movieId.data).filter (fun p => p ≠ "")
  let trailing := (parts.reverse.takeWhile
    (fun p => suffixes.contains (String.mk (p.data.map Char.toLower)))).length
  let endIndex := parts.length - trailing
  let endIndex := if endIndex = 0 then max 1 ((parts.length * 7) / 10) else endIndex
  String.intercalate " " (parts.take endIndex)

/-- `_getExternalMetadata(movieDetails)` (MetaHandler.js lines 494-520):
only consulted when a `tt`-prefixed imdbId was discovered; failures are
caught and yield `null`.  The second component counts provider calls. -/
def getExternalMetadata (env : Env) (movieDetails : MovieDetails) :
    Option ExternalMeta × ℕ :=
  match movieDetails.imdbId with
  | some iid =>
      if strStartsWith iid "tt" then
        match env.getMovieMetadata iid with
        | .ok r => (r, 1)
        | .error _ => (none, 1)
      else (none, 0)
  | none => (none, 0)

/-- `_scrapeMovie(movieId, fullId)` (MetaHandler.js lines 306-361): search
the lister, match, fetch details, enrich, build, persist; lister failures
become a thrown `SCRAPING_ERROR`. -/
def scrapeMovie (env : Env) (movieId fullId : String) :
    Except AppError (Option RouteObj) × MetaEffects :=
  let searchTitle := extractSearchTitle movieId
  match env.performQuery searchTitle 0 100 with
  | .error _ => (.error .scraping, { queryCalls := 1 })
  | .ok releases =>
      match findMatchingRelease releases movieId with
      | none => (.ok none, { queryCalls := 1 })
      | some release =>
          match env.getMovieDetails release.detailsLink with
          | .error _ => (.error .scraping, { queryCalls := 1, detailsCalls := 1 })
          | .ok movieDetails =>
              let em := getExternalMetadata env movieDetails
              let meta := buildFromScrapedData env.urlOk env.currentYear release
                (some movieDetails) em.1 fullId
              let record : MovieData :=
                { meta := some (.box (some meta)), movieDetails := some movieDetails,
                  release := some release, externalMeta := em.1,
                  lastUpdated := some env.nowIso }
              (.ok (some (.wrapped (.canon meta))),
                { queryCalls := 1, detailsCalls := 1, metadataCalls := em.2,
                  dbSaves := [(fullId, record)] })

/-- `_handleCineCalidadId(id)` (MetaHandler.js lines 191-224): saved record,
then catalog scan, then scrape. -/
def handleCineCalidadId (env : Env) (id : String) :
    Except AppError (Option RouteObj) × MetaEffects :=
  let movieId := jsReplaceOnce "cc_" id
  match getSavedMovie env id with
  | some r => (.ok (some r), {})
  | none =>
      match getCatalogMovie env movieId id with
      | (some r, saves) => (.ok (some r), { catalogScanCalls := 1, dbSaves := saves })
      | (none, _) =>
          match scrapeMovie env movieId id with
          | (res, eff) => (res, { eff with catalogScanCalls := 1 })

/-- `_handleIMDBId(id)` (MetaHandler.js lines 157-183): provider failures
become a thrown `EXTERNAL_SERVICE_ERROR`; a `null` provider result is
`null`. -/
def handleIMDBId (env : Env) (id : String) :
    Except AppError (Option RouteObj) × MetaEffects :=
  match env.getMovieMetadata id with
  | .error _ => (.error .externalService, { metadataCalls := 1 })
  | .ok none => (.ok none, { metadataCalls := 1 })
  | .ok (some metadata) =>
      (.ok (some (.canonObj (buildFromIMDB env.urlOk env.currentYear id metadata))),
        { metadataCalls := 1 })

/-- `_routeMetaRequest(id)` (MetaHandler.js lines 136-149). -/
def routeMetaRequest (env : Env) (id : String) :
    Except AppError (Option RouteObj) × MetaEffects :=
  if strStartsWith id "tt" then handleIMDBId env id
  else if strStartsWith id "cc_" then handleCineCalidadId env id
  else (.error .unsupportedIdType, {})

/-- A request argument object `{type?, id?}` (absent fields are `none`). -/
structure Args where
  type : Option String := none
  id : Option String := none
  deriving Repr, DecidableEq

/-- `MetaHandler.handle(args)` (MetaHandler.js lines 32-106).  All thrown
errors are caught by the handler's own `catch` and become `{meta: null}`
(`_handleError`, lines 579-600), so the result is total: truthiness check
on `args.type`/`args.id`, `_validateInput`, the movie-type check,
`sanitizeId`, the `meta:`-cache check, routing, and the final unwrap plus
write-through cache. -/
def metaHandle (env : Env) (args : Args) : MetaResponse × MetaEffects :=
  match args.type, args.id with
  | some t, some i =>
      if t = "" ∨ i = "" then (none, {})
      else if validateMovieId i then
        if t = "movie" then
          match sanitizeId i with
          | .error _ => (none, {})
          | .ok sanitizedId =>
              match env.metaCache ("meta:" ++ sanitizedId) with
              | some cached => (cached, {})
              | none =>
                  match routeMetaRequest env sanitizedId with
                  | (.error _, eff) => (none, eff)
                  | (.ok none, eff) => (none, eff)
                  | (.ok (some robj), eff) =>
                      let response : MetaResponse := some (unwrapRoute robj)
                      (response,
                        { eff with cacheWrites :=
                            eff.cacheWrites ++ [("meta:" ++ sanitizedId, response)] })
        else (none, {})
      else (none, {})
  | _, _ => (none, {})

/-! ### Stream handler -/

/-- Side effects of one stream request. -/
structure StreamEffects where
  queryCalls : ℕ := 0
  detailsCalls : ℕ := 0
  metadataCalls : ℕ := 0
  torrentCalls : ℕ := 0
  cacheWrites : List (String × StreamResponse) := []
  dbMovieSaves : List (String × MovieData) := []
  dbTorrentSaves : List (String × MagnetInfo) := []
  deriving Repr, DecidableEq

/-- Pointwise accumulation of stream effects. -/
def StreamEffects.merge (a b : StreamEffects) : StreamEffects :=
  { queryCalls := a.queryCalls + b.queryCalls
    detailsCalls := a.detailsCalls + b.detailsCalls
    metadataCalls := a.metadataCalls + b.metadataCalls
    torrentCalls := a.torrentCalls + b.torrentCalls
    cacheWrites := a.cacheWrites ++ b.cacheWrites
    dbMovieSaves := a.dbMovieSaves ++ b.dbMovieSaves
    dbTorrentSaves := a.dbTorrentSaves ++ b.dbTorrentSaves }

/-- `TorrentInfoService.processLink(link, movieData, id)` (part_004 lines
55-84): cached torrent record, else inspect and persist; every failure is
caught and contributes zero streams. -/
def processLink (env : Env) (link : DownloadLink) (movieData : MovieData) (id : String) :
    List StreamDesc × StreamEffects :=
  let url := link.url.getD ""
  match env.dbTorrents url with
  | some magnetInfo => (createStreamsFromTorrent magnetInfo movieData id, {})
  | none =>
      match env.getTorrentInfo url with
      | .error _ => ([], { torrentCalls := 1 })
      | .ok none => ([], { torrentCalls := 1 })
      | .ok (some raw) =>
          let magnetInfo := mapRawTorrent raw
          (createStreamsFromTorrent magnetInfo movieData id,
            { torrentCalls := 1, dbTorrentSaves := [(url, magnetInfo)] })

/-- `_categorizeLinks(downloadLinks)` (MetaHandler.js lines 947-956):
split on `link.url.startsWith("magnet:")`; links without a truthy url land
in neither list. -/
def categorizeLinks (downloadLinks : List DownloadLink) :
    List DownloadLink × List DownloadLink :=
  (downloadLinks.filter (fun l =>
      (l.url.getD "") ≠ "" && strStartsWith (l.url.getD "") "magnet:"),
   downloadLinks.filter (fun l =>
      (l.url.getD "") ≠ "" && !(strStartsWith (l.url.getD "") "magnet:")))

/-- `_processMagnetLinks` (MetaHandler.js lines 966-987): all links are
inspected (`Promise.allSettled`), failures contribute nothing. -/
def processMagnetLinks (env : Env) (links : List DownloadLink) (movieData : MovieData)
    (id : String) : List StreamDesc × StreamEffects :=
  links.foldl (fun acc link =>
    let r := processLink env link movieData id
    (acc.1 ++ r.1, acc.2.merge r.2)) ([], {})

/-- `_extractQuality(linkName)` (MetaHandler.js lines 1020-1029). -/
def extractQuality (linkName : Option String) : String :=
  let name := (linkName.getD "").data.map Char.toUpper
  if listIncludes "4K".data name || listIncludes "2160P".data name then "4K"
  else if listIncludes "720P".data name then "720p"
  else "1080p"

/-- `_processDownloadLinks` (MetaHandler.js lines 997-1012): direct
download descriptors. -/
def processDownloadLinks (links : List DownloadLink) (movieData : MovieData)
    (id : String) : List StreamDesc :=
  links.map (fun link =>
    let quality := extractQuality link.name
    let bingeGroupId := getBingeGroupId movieData id
    { name := "📥 Cinecalidad " ++ quality ++ " - Download"
      description := some ((jsOrStr link.name (some "Download")).getD "Download")
      externalUrl := link.url
      bingeGroup := "cinecalidad-" ++ bingeGroupId
      countryWhitelist := COUNTRY_WHITELIST })

/-- `_processStreams(movieData, id)` (MetaHandler.js lines 907-939). -/
def processStreams (env : Env) (movieData : MovieData) (id : String) :
    List StreamDesc × StreamEffects :=
  match movieData.movieDetails with
  | none => ([], {})
  | some movieDetails =>
      if movieDetails.downloadLinks.length = 0 then ([], {})
      else
        let cat := categorizeLinks movieDetails.downloadLinks
        let magnet := if cat.1.length > 0
          then processMagnetLinks env cat.1 movieData id
          else ([], {})
        (magnet.1 ++ processDownloadLinks cat.2 movieData id, magnet.2)

/-- `_createStremioId(release)` (MetaHandler.js lines 858-866). -/
def createStremioId (release : Release) : Option String :=
  if release.id ≠ "" then some ("cc_" ++ release.id)
  else match release.imdbId with
    | some iid => if strStartsWith iid "tt" && iid ≠ "" then some iid else none
    | none => none

/-- The find predicate of `_findCineCalidadRelease` (MetaHandler.js lines
830-836), including the `decodeURIComponent` calls, which throw `URIError`
on malformed percent escapes (`.error`). -/
def findWithDecode (env : Env) (releases : List Release) (movieId : String) :
    Except Unit (Option Release) :=
  match releases with
  | [] => .ok none
  | r :: rest =>
      if r.id = movieId then .ok (some r)
      else if r.id = env.encodeURIComponent movieId then .ok (some r)
      else match env.decodeURIComponent r.id with
        | none => .error ()
        | some dr =>
            if dr = movieId then .ok (some r)
            else match env.decodeURIComponent movieId with
              | none => .error ()
              | some dm =>
                  if dr = dm then .ok (some r) else findWithDecode env rest movieId

/-- `_findCineCalidadRelease(id)` (MetaHandler.js lines 824-837): one
catalog query, then the id-matching scan. -/
def findCineCalidadRelease (env : Env) (id : String) :
    Except Unit (Option Release) × ℕ :=
  let movieId := jsReplaceOnce "cc_" id
  match env.performQuery "" 0 100 with
  | .error _ => (.error (), 1)
  | .ok releases => (findWithDecode env releases movieId, 1)

/-- `_findImdbRelease(id)` (MetaHandler.js lines 845-850). -/
def findImdbRelease (env : Env) (id : String) : Except Unit (Option Release) × ℕ :=
  match env.performQuery "" 0 100 with
  | .error _ => (.error (), 1)
  | .ok releases => (.ok (releases.find? (fun r => createStremioId r == some id)), 1)

/-- `_findRelease(id)` (MetaHandler.js lines 809-816). -/
def findRelease (env : Env) (id : String) : Except Unit (Option Release) × ℕ :=
  if strStartsWith id "cc_" then findCineCalidadRelease env id
  else if strStartsWith id "tt" then findImdbRelease env id
  else (.ok none, 0)

/-- `_enrichWithExternalMetadata(movieDetails, id)` (MetaHandler.js lines
874-898): mutate `movieDetails.externalMeta` on success; all failures are
swallowed. -/
def enrichWithExternalMetadata (env : Env) (movieDetails : MovieDetails) (id : String) :
    MovieDetails × ℕ :=
  match movieDetails.imdbId with
  | some iid =>
      if strStartsWith id "cc_" && strStartsWith iid "tt" then
        match env.getMovieMetadata iid with
        | .ok (some em) => ({ movieDetails with externalMeta := some em }, 1)
        | .ok none => (movieDetails, 1)
        | .error _ => (movieDetails, 1)
      else (movieDetails, 0)
  | none => (movieDetails, 0)

/-- `_fetchMovieData(id)` (MetaHandler.js lines 771-801): find a release,
fetch details, enrich, persist; any failure is caught and yields `null`. -/
def fetchMovieData (env : Env) (id : String) : Option MovieData × StreamEffects :=
  match findRelease env id with
  | (.error _, q) => (none, { queryCalls := q })
  | (.ok none, q) => (none, { queryCalls := q })
  | (.ok (some release), q) =>
      match env.getMovieDetails release.detailsLink with
      | .error _ => (none, { queryCalls := q, detailsCalls := 1 })
      | .ok movieDetails =>
          let en := enrichWithExternalMetadata env movieDetails id
          let movieData : MovieData :=
            { movieDetails := some en.1, release := some release,
              externalMeta := en.1.externalMeta, lastUpdated := some env.nowIso }
          (some movieData,
            { queryCalls := q, detailsCalls := 1, metadataCalls := en.2,
              dbMovieSaves := [(id, movieData)] })

/-- `_getMovieData(id)` (MetaHandler.js lines 753-763): a saved record
with `movieDetails` wins, otherwise fetch. -/
def getMovieData (env : Env) (id : String) : Option MovieData × StreamEffects :=
  match env.dbMovies id with
  | some savedMovie =>
      if savedMovie.movieDetails.isSome then (some savedMovie, {})
      else fetchMovieData env id
  | none => fetchMovieData env id

/-- `_validateRequest(args)` truthiness (MetaHandler.js lines 728-735). -/
def streamArgsValid (args : Args) : Bool :=
  match args.id, args.type with
  | some i, some t => i ≠ "" && t ≠ ""
  | _, _ => false

/-- `StreamHandler.handle(args)` (MetaHandler.js lines 677-721).  Unlike
the meta handler, its `catch` RE-THROWS (`throw error`, line 719), so the
result is `Except`: the only reachable throw is the validation error (all
downstream steps catch their own failures). -/
def streamHandle (env : Env) (args : Args) :
    Except AppError (StreamResponse × StreamEffects) :=
  if !(streamArgsValid args) then .error .invalidInput
  else
    let t := args.type.getD ""
    let id := args.id.getD ""
    if t ≠ "movie" then .ok ([], {})
    else
      let cacheKey := "stream_" ++ id
      match env.streamCache cacheKey with
      | some cached => .ok (cached, {})
      | none =>
          match getMovieData env id with
          | (none, eff1) => .ok ([], eff1)
          | (some movieData, eff1) =>
              let pr := processStreams env movieData id
              let eff := eff1.merge pr.2
              .ok (pr.1,
                { eff with cacheWrites := eff.cacheWrites ++ [(cacheKey, pr.1)] })

/-- The top-level stream result: either a stream response or the
`{success: false, error: {code, message, retryable}}` object produced by
`ErrorHandler.handle`. -/
inductive TopStream where
  | streams (r : StreamResponse)
  | errObj (code : String) (retryable : Bool)
  deriving Repr, DecidableEq

/-- `_createStreamHandler()` (part_005 lines 389-430): await the handler
and convert a thrown error with `ErrorHandler.handle` (errors.js lines
124-164), which returns `{success: false, error: {...}}` — it does not
re-shape the result into `{streams: []}`. -/
def streamTopLevel (env : Env) (args : Args) : TopStream × StreamEffects :=
  match streamHandle env args with
  | .ok (r, eff) => (.streams r, eff)
  | .error e => (.errObj e.codeStr e.retryable, {})

/-! ### Concrete environments used to instantiate the theorems -/

/-- An environment in which every persisted read misses and every
collaborator call fails. -/
def envNull : Env :=
  { urlOk := fun _ => false
    currentYear := 2026
    nowIso := "2026-10-12T00:00:00.000Z"
    dbMovies := fun _ => none
    dbFind := fun _ => none
    performQuery := fun _ _ _ => .error ()
    getMovieDetails := fun _ => .error ()
    getMovieMetadata := fun _ => .error ()
    metaCache := fun _ => none
    streamCache := fun _ => none
    dbTorrents := fun _ => none
    getTorrentInfo := fun _ => .error ()
    encodeURIComponent := fun s => s
    decodeURIComponent := fun s => some s }

/-- A complete canonical meta as a persisted store could hold it. -/
def c1Meta : CanonicalMeta := { id := "cc_foo", name := "Foo" }

/-- A persisted MovieRecord whose `meta` is complete. -/
def c1Rec : MovieData := { meta := some (.box (some c1Meta)) }

/-- `envNull` with one persisted movie under `cc_foo`. -/
def envC1 : Env :=
  { envNull with dbMovies := fun k => if k = "cc_foo" then some c1Rec else none }

/-- A torrent with three files of which two have video extensions. -/
def c8Torrent : MagnetInfo :=
  { hash := "abc123"
    language := "Lat"
    fileSize := "301 B"
    files := [{ name := "a.mp4", size := some 100, index := 0, sizeFormatted := "100 B" },
              { name := "b.mkv", size := some 200, index := 1, sizeFormatted := "200 B" },
              { name := "c.nfo", size := some 1, index := 2, sizeFormatted := "1 B" }] }

/-- A persisted record with details but zero download links (resolves, but
yields no streams). -/
def c10Rec : MovieData := { movieDetails := some { downloadLinks := [] } }

/-- `envNull` with one persisted movie under `cc_z` for the stream path. -/
def envC10 : Env :=
  { envNull with dbMovies := fun k => if k = "cc_z" then some c10Rec else none }

/-! ## Theorems -/

/-- `find?` only depends on the predicate's values on the list's elements. -/
theorem find?_congr_on {α : Type} (p q : α → Bool) (l : List α)
    (h : ∀ x ∈ l, p x = q x) : l.find? p = l.find? q := by
  induction l with
  | nil => rfl
  | cons a l ih =>
      simp only [List.find?]
      rw [h a (List.mem_cons_self a l)]
      cases q a with
      | true => rfl
      | false => exact ih (fun x hx => h x (List.mem_cons_of_mem a hx))

/-- C3: `match(releases, targetFragment)` returns the release whose id exactly
equals the target fragment if one exists (skipping fuzzy logic); otherwise,
normalizing ids by lower-casing and stripping `-`, whitespace and `_`, and
taking `minLength = min(15, len(normalizedTarget), len(normalizedCandidate))`,
it returns the first release in list order whose normalized id either shares
its first `minLength` characters with the normalized target or contains the
normalized target's first `minLength` characters as a substring; it returns
`none` when the list is empty or no candidate qualifies.  Proved as equality
with `matchSpec`, the direct formalization of that description, for releases
whose ids are non-empty strings (the source additionally skips releases with
a falsy id during the fuzzy pass). -/
theorem c3_findMatchingRelease_matches_spec (releases : List Release) (targetId : String)
    (h : ∀ r ∈ releases, r.id ≠ "") :
    findMatchingRelease releases targetId = matchSpec releases targetId := by
  unfold findMatchingRelease matchSpec
  cases hfind : releases.find? (fun r => r.id == targetId) with
  | some r => rfl
  | none =>
      cases releases with
      | nil => rfl
      | cons a l =>
          rw [if_pos (by simp : (a :: l).length > 0)]
          apply find?_congr_on
          intro x hx
          unfold fuzzyMatches
          rw [if_neg (h x hx)]

/-- Witness for C3 at the spec's own example: releases `alpha`, `beta-2023`
and target `beta-2023-extra`. -/
theorem c3_findMatchingRelease_matches_spec_witness :
    (∀ r ∈ [({ id := "alpha" } : Release), { id := "beta-2023" }], r.id ≠ "") ∧
    findMatchingRelease [{ id := "alpha" }, { id := "beta-2023" }] "beta-2023-extra" =
      matchSpec [{ id := "alpha" }, { id := "beta-2023" }] "beta-2023-extra" :=
  ⟨by decide, c3_findMatchingRelease_matches_spec _ _ (by decide)⟩

/-- C5 (failing input): `setCache` stores `expires_at` as a JS ISO string
(`...T...Z`) while `getCache` compares it to SQLite's `CURRENT_TIMESTAMP`
(`YYYY-MM-DD HH:MM:SS`) with TEXT collation; since `'T' > ' '`, an entry
written 2026-10-12T08:00Z with a 30-minute TTL is still returned at
10:00 the same day, violating the freshness invariant. -/
theorem c5_getCache_returns_expired_entry :
    toISOString 1791792000000 = "2026-10-12T08:00:00.000Z" ∧
    sqliteCurrentTimestamp 1791799200000 = "2026-10-12 10:00:00" ∧
    getCache (setCache ([] : List (CacheRow ℕ)) "k" 1 30 1791792000000) "k" 1791799200000
      = some 1 ∧
    1791792000000 + 30 * 60 * 1000 < 1791799200000 := by
  refine ⟨by decide, by decide, by decide, by decide⟩

/-- The two selection cores agree on every valid-candidate list. -/
theorem selectCore_eq_specCore (L : List String) : selectCore L = selectSpecCore L := by
  cases L with
  | nil => rfl
  | cons v vs =>
      unfold selectCore selectSpecCore
      rcases hf : (v :: vs).filter (fun t => !(t.data.contains '(')) with _ | ⟨w, ws⟩
      · rw [hf, if_neg (by simp : ¬((v :: vs).length = 0)),
          if_neg (by simp : ¬(([] : List String).length > 0))]
        rfl
      · rw [hf, if_neg (by simp : ¬((v :: vs).length = 0)),
          if_pos (by simp : (w :: ws).length > 0)]
        rfl

/-- C6: the canonical name is chosen from
`externalMeta.originalTitle, externalMeta.title, release.originalTitle,
release.title`, accepting only non-empty trimmed strings, preferring a title
without a parenthetical substring and falling back to the first valid
candidate when all contain parentheses, with default `"Unknown Title"`;
`release = {title: "Foo (2023)", originalTitle: "Foo"}` with no external
metadata yields name `"Foo"`, and `release.title = "Foo (2023)"` alone
yields `"Foo (2023)"`.  The general part is proved as equality of
`_selectBestTitle` with `selectBestTitleSpec`, the direct formalization of
that selection discipline. -/
theorem c6_name_selection :
    (∀ titles : List (Option String), selectBestTitle titles = selectBestTitleSpec titles) ∧
    (∀ (u : String → Bool) (cy : ℤ),
      (buildFromScrapedData u cy
        { id := "foo-2023", title := some "Foo (2023)", originalTitle := some "Foo" }
        none none "cc_foo-2023").name = "Foo") ∧
    (∀ (u : String → Bool) (cy : ℤ),
      (buildFromScrapedData u cy
        { id := "foo-2023", title := some "Foo (2023)" }
        none none "cc_foo-2023").name = "Foo (2023)") ∧
    selectBestTitle [none, none, none, none] = "Unknown Title" := by
  refine ⟨?_, ?_, ?_, by decide⟩
  · intro titles
    have hvalid : titles.filterMap (fun t =>
        match t with
        | some s => if s ≠ "" && jsTrim s ≠ "" then some s else none
        | none => none) =
        titles.filterMap (fun t => t.bind (fun s => if jsTrim s ≠ "" then some s else none)) := by
      apply List.filterMap_congr
      intro t _
      cases t with
      | none => rfl
      | some s =>
          by_cases hs : s = ""
          · subst hs; rfl
          · by_cases ht : jsTrim s = "" <;>
              simp [hs, ht, Option.bind]
    calc selectBestTitle titles
        = selectCore (titles.filterMap (fun t =>
            match t with
            | some s => if s ≠ "" && jsTrim s ≠ "" then some s else none
            | none => none)) := rfl
      _ = selectSpecCore (titles.filterMap (fun t =>
            match t with
            | some s => if s ≠ "" && jsTrim s ≠ "" then some s else none
            | none => none)) := selectCore_eq_specCore _
      _ = selectSpecCore (titles.filterMap (fun t =>
            t.bind (fun s => if jsTrim s ≠ "" then some s else none))) := by rw [hvalid]
      _ = selectBestTitleSpec titles := rfl
  · intro u cy
    show selectBestTitle [none, none, some "Foo", some "Foo (2023)"] = "Foo"
    decide
  · intro u cy
    show selectBestTitle [none, none, none, some "Foo (2023)"] = "Foo (2023)"
    decide

/-- C7 counterexample: the rating `0` (a JS number) coerces to a number
within `[0, 10]`, yet `_parseRating` drops it (the `if (!rating)` falsy
guard fires), so `imdbRating` is absent where the claim requires `0.0`. -/
theorem c7_counterexample_rating_zero :
    parseRating (some (.num 0)) = none ∧ (0:ℚ) ≤ 0 ∧ (0:ℚ) ≤ 10 := by
  refine ⟨by decide, le_refl 0, by norm_num⟩

/-- C7 amended: every *truthy* rating input that coerces to a number within
`[0, 10]` yields that number rounded to one decimal; non-numeric values,
numbers outside `[0, 10]`, and falsy inputs (the number `0`, the empty
string, absence) yield an absent `imdbRating`.  In particular the number `0`
is absent even though it lies in `[0, 10]`, while the string `"0"` (truthy)
is kept.  The builder's `imdbRating` field is exactly `_parseRating`'s
result. -/
theorem c7_parseRating_amended :
    (∀ q : ℚ, q ≠ 0 → 0 ≤ q → q ≤ 10 →
        parseRating (some (.num q)) = some ((jsRound (q * 10) : ℚ) / 10)) ∧
    (∀ q : ℚ, q < 0 ∨ 10 < q ∨ q = 0 → parseRating (some (.num q)) = none) ∧
    parseRating (some .other) = none ∧
    parseRating none = none ∧
    parseRating (some (.str "")) = none ∧
    (parseFloatJs "0" = some 0 ∧ parseRating (some (.str "0")) = some 0) ∧
    (∀ s : String, parseFloatJs s = none → parseRating (some (.str s)) = none) ∧
    (∀ s : String, s ≠ "" → ∀ p : ℚ, parseFloatJs s = some p → 0 ≤ p → p ≤ 10 →
        parseRating (some (.str s)) = some ((jsRound (p * 10) : ℚ) / 10)) ∧
    (∀ (u : String → Bool) (cy : ℤ) (i : String) (em : ExternalMeta),
        (buildFromIMDB u cy i em).imdbRating = parseRating em.imdbRating) := by
  have hpf0 : parseFloatJs "0" = some 0 := by
    have h1 : parseFloatParts "0" = some ⟨1, ['0'], [], 0⟩ := by decide
    have hd : digitsToNat ['0'] = 0 := by decide
    have hd2 : digitsToNat [] = 0 := rfl
    rw [parseFloatJs, h1, Option.map_some']
    norm_num [partsToRat, hd, hd2, qPowTen]
  have hfloor : jsRound ((0:ℚ) * 10) = 0 := by
    unfold jsRound
    rw [Int.floor_eq_zero_iff]
    constructor <;> norm_num
  refine ⟨?_, ?_, rfl, rfl, by decide, ⟨hpf0, ?_⟩, ?_, ?_, fun _ _ _ _ => rfl⟩
  · intro q hq h0 h10
    have hfalse : (decide (q = 0)) = false := decide_eq_false hq
    simp only [parseRating, hfalse, Bool.false_eq_true, if_false]
    rw [if_neg (by push_neg; exact ⟨h0, h10⟩ : ¬(q < 0 ∨ q > 10))]
  · intro q hcase
    rcases hcase with h | h | h
    · have hfalse : (decide (q = 0)) = false := decide_eq_false (ne_of_lt h)
      simp only [parseRating, hfalse, Bool.false_eq_true, if_false]
      rw [if_pos (Or.inl h)]
    · have hq : q ≠ 0 := by rintro rfl; norm_num at h
      have hfalse : (decide (q = 0)) = false := decide_eq_false hq
      simp only [parseRating, hfalse, Bool.false_eq_true, if_false]
      rw [if_pos (Or.inr h)]
    · subst h
      decide
  · simp only [parseRating, show (("0":String) == "") = false from by decide,
      Bool.false_eq_true, if_false, hpf0]
    rw [if_neg (by norm_num : ¬((0:ℚ) < 0 ∨ (0:ℚ) > 10))]
    rw [hfloor]
    norm_num
  · intro s hnone
    by_cases hs : s = ""
    · subst hs; decide
    · have hb : (s == "") = false := beq_eq_false_iff_ne.2 hs
      simp only [parseRating, hb, Bool.false_eq_true, if_false, hnone]
  · intro s hs p hp h0 h10
    have hb : (s == "") = false := beq_eq_false_iff_ne.2 hs
    simp only [parseRating, hb, Bool.false_eq_true, if_false, hp]
    rw [if_neg (by push_neg; exact ⟨h0, h10⟩ : ¬(p < 0 ∨ p > 10))]

/-- Witness for C7 amended at the rating `29/4 = 7.25`. -/
theorem c7_parseRating_amended_witness :
    ((29:ℚ)/4 ≠ 0 ∧ (0:ℚ) ≤ 29/4 ∧ (29:ℚ)/4 ≤ 10) ∧
    parseRating (some (.num (29/4))) = some ((jsRound ((29:ℚ)/4 * 10) : ℚ) / 10) :=
  ⟨⟨by norm_num, by norm_num, by norm_num⟩,
    c7_parseRating_amended.1 (29/4) (by norm_num) (by norm_num) (by norm_num)⟩

/-- C4 (failing input): the source has no guard for an empty target fragment,
so matching the empty fragment against the non-empty list `[{id: "alpha"}]`
returns the first candidate instead of the `null` the spec demands
(`minLength = 0` makes the prefix condition trivially true). -/
theorem c4_empty_target_returns_first_candidate :
    findMatchingRelease [{ id := "alpha" }] "" = some { id := "alpha" } := by
  decide

/-- C1: for a site-native id whose persisted MovieRecord holds a complete
`meta`, the meta pipeline (with a cold cache) returns that stored meta
verbatim and performs zero Release-Lister calls — neither the catalog scan
(`findMovieByOriginalId`) nor the live scrape (`performQuery` /
`getMovieDetails`) is attempted; the only side effect is the write-through
of the response to the `meta:` cache. -/
theorem c1_persisted_meta_short_circuits
    (env : Env) (args : Args) (id : String) (rec : MovieData) (v : StoredMeta)
    (htype : args.type = some "movie") (hid : args.id = some id)
    (hne : id ≠ "")
    (hvalid : validateMovieId id = true)
    (hsan : sanitizeId id = .ok id)
    (hnott : strStartsWith id "tt" = false)
    (hcc : strStartsWith id "cc_" = true)
    (hcache : env.metaCache ("meta:" ++ id) = none)
    (hdb : env.dbMovies id = some rec)
    (hmeta : rec.meta = some v) :
    metaHandle env args =
      (some v, { queryCalls := 0, detailsCalls := 0, metadataCalls := 0,
                 catalogScanCalls := 0,
                 cacheWrites := [("meta:" ++ id, some v)], dbSaves := [] }) := by
  rcases args with ⟨t, i⟩
  change t = some "movie" at htype
  change i = some id at hid
  subst htype hid
  simp only [metaHandle, hne, hvalid, hsan, hcache, routeMetaRequest, hnott, hcc,
    handleCineCalidadId, getSavedMovie, hdb, hmeta, unwrapRoute,
    Bool.false_eq_true, if_false, if_true, ite_true, ite_false, List.nil_append]
  simp

/-- Witness for C1: the concrete environment `envC1` holds a complete
record under `cc_foo` and the handler returns it with zero lister calls. -/
theorem c1_persisted_meta_short_circuits_witness :
    validateMovieId "cc_foo" = true ∧
    metaHandle envC1 { type := some "movie", id := some "cc_foo" } =
      (some (.box (some c1Meta)),
        { queryCalls := 0, detailsCalls := 0, metadataCalls := 0,
          catalogScanCalls := 0,
          cacheWrites := [("meta:" ++ "cc_foo", some (.box (some c1Meta)))],
          dbSaves := [] }) :=
  ⟨by decide,
    c1_persisted_meta_short_circuits envC1 _ "cc_foo" c1Rec (.box (some c1Meta))
      rfl rfl (by decide) (by decide) (by rfl) (by decide) (by decide)
      rfl (by decide) rfl⟩

/-- `_scrapeMovie` never writes to the meta cache. -/
theorem scrapeMovie_no_cacheWrites (env : Env) (movieId fullId : String) :
    (scrapeMovie env movieId fullId).2.cacheWrites = [] := by
  unfold scrapeMovie
  dsimp only
  split
  · rfl
  · split
    · rfl
    · split
      · rfl
      · rfl

/-- `_handleCineCalidadId` never writes to the meta cache. -/
theorem handleCineCalidadId_no_cacheWrites (env : Env) (id : String) :
    (handleCineCalidadId env id).2.cacheWrites = [] := by
  unfold handleCineCalidadId
  dsimp only
  split
  · rfl
  · split
    · rfl
    · exact scrapeMovie_no_cacheWrites env (jsReplaceOnce "cc_" id) id

/-- `_routeMetaRequest` never writes to the meta cache. -/
theorem routeMetaRequest_no_cacheWrites (env : Env) (id : String) :
    (routeMetaRequest env id).2.cacheWrites = [] := by
  unfold routeMetaRequest
  split
  · unfold handleIMDBId
    split <;> rfl
  · split
    · exact handleCineCalidadId_no_cacheWrites env id
    · rfl

/-- C9: no negative caching on the meta path — whenever the meta pipeline
answers `{meta: null}` (validation rejection, every fallback missing, or an
internal error), it writes nothing to the meta cache; only a non-null
response is cached. -/
theorem c9_no_negative_caching (env : Env) (args : Args)
    (h : (metaHandle env args).1 = none) :
    (metaHandle env args).2.cacheWrites = [] := by
  rcases args with ⟨t, i⟩
  cases t with
  | none => rfl
  | some t =>
      cases i with
      | none => rfl
      | some i =>
          unfold metaHandle at h ⊢
          dsimp only at h ⊢
          split_ifs at h ⊢
          all_goals try rfl
          -- remaining: the sanitize/cache/route cascade
          rcases hs : sanitizeId i with _ | sid
          · rfl
          · rw [hs] at h
            try dsimp only at h ⊢
            rcases hc : env.metaCache ("meta:" ++ sid) with _ | cached
            · rw [hc] at h
              try dsimp only at h ⊢
              rcases hr : routeMetaRequest env sid with ⟨res, eff⟩
              rw [hr] at h
              try dsimp only at h ⊢
              have hnc := routeMetaRequest_no_cacheWrites env sid
              rw [hr] at hnc
              cases res with
              | error e => exact hnc
              | ok o =>
                  cases o with
                  | none => exact hnc
                  | some robj => exact absurd h (Option.some_ne_none _)
            · rfl

/-- Witness for C9: a `series`-typed request yields `{meta: null}` and no
cache write. -/
theorem c9_no_negative_caching_witness :
    (metaHandle envNull { type := some "series", id := some "tt1234567" }).1 = none ∧
    (metaHandle envNull { type := some "series", id := some "tt1234567" }).2.cacheWrites = [] :=
  ⟨by decide, c9_no_negative_caching envNull _ (by decide)⟩

/-- A stream request that passes `_validateRequest` always resolves to an
`ok` result (every downstream step catches its own failures). -/
theorem streamHandle_ok_of_valid (env : Env) (args : Args)
    (h : streamArgsValid args = true) :
    ∃ r eff, streamHandle env args = .ok (r, eff) := by
  unfold streamHandle
  rw [h, if_neg (by simp : ¬((!true) = true))]
  dsimp only
  split
  · exact ⟨_, _, rfl⟩
  · split
    · exact ⟨_, _, rfl⟩
    · split
      · exact ⟨_, _, rfl⟩
      · exact ⟨_, _, rfl⟩

/-- C2 counterexample: a stream request with a missing `id` makes
`StreamHandler.handle` throw; the top-level wrapper converts the error with
`ErrorHandler.handle` and returns `{success: false, error: {code:
"INVALID_INPUT", retryable: false}}` — not the `{streams: []}` the claim
requires. -/
theorem c2_counterexample_stream_error_object :
    streamTopLevel envNull { type := some "movie", id := none } =
      (.errObj "INVALID_INPUT" false, {}) ∧
    (streamTopLevel envNull { type := some "movie", id := none }).1 ≠
      TopStream.streams [] := by
  constructor
  · rfl
  · intro hcontra
    simp [streamTopLevel, streamHandle, streamArgsValid] at hcontra

/-- With a cold store and failing collaborators, every route errors (and
the handler's catch turns that into `{meta: null}`). -/
theorem routeMetaRequest_all_fail (env : Env) (sid : String)
    (hdb : ∀ s, env.dbMovies s = none) (hdf : ∀ s, env.dbFind s = none)
    (hq : ∀ a b c, env.performQuery a b c = .error ())
    (hmm : ∀ s, env.getMovieMetadata s = .error ()) :
    ∃ e eff, routeMetaRequest env sid = (.error e, eff) := by
  unfold routeMetaRequest
  split
  · unfold handleIMDBId
    rw [hmm sid]
    exact ⟨_, _, rfl⟩
  · split
    · unfold handleCineCalidadId getSavedMovie getCatalogMovie scrapeMovie
      simp only [hdb, hdf, hq]
      exact ⟨_, _, rfl⟩
    · exact ⟨_, _, rfl⟩

/-- C2 amended: the meta handler never lets an exception escape and returns
`{meta: null}` whenever every source fails; a stream request with truthy
`type`/`id` always yields a well-formed `{streams: [...]}` at the top
level, but a stream request with missing arguments is converted by the
top-level wrapper into `{success: false, error: {...}}` instead of
`{streams: []}` (the wrapper itself never throws). -/
theorem c2_amended_toplevel_shapes (env : Env) (args : Args) :
    (streamArgsValid args = false →
      streamTopLevel env args = (.errObj "INVALID_INPUT" false, {})) ∧
    (streamArgsValid args = true →
      ∃ r eff, streamHandle env args = .ok (r, eff) ∧
        streamTopLevel env args = (.streams r, eff)) ∧
    ((∀ s, env.metaCache s = none) → (∀ s, env.dbMovies s = none) →
     (∀ s, env.dbFind s = none) →
     (∀ a b c, env.performQuery a b c = .error ()) →
     (∀ s, env.getMovieMetadata s = .error ()) →
     (metaHandle env args).1 = none) := by
  refine ⟨?_, ?_, ?_⟩
  · intro h
    unfold streamTopLevel streamHandle
    rw [h]
    rfl
  · intro h
    obtain ⟨r, eff, hok⟩ := streamHandle_ok_of_valid env args h
    refine ⟨r, eff, hok, ?_⟩
    unfold streamTopLevel
    rw [hok]
  · intro hmc hdb hdf hq hmm
    rcases args with ⟨t, i⟩
    cases t with
    | none => rfl
    | some t =>
        cases i with
        | none => rfl
        | some i =>
            unfold metaHandle
            dsimp only
            split_ifs
            all_goals try rfl
            rcases hs : sanitizeId i with _ | sid
            · rfl
            · try dsimp only
              rw [hmc ("meta:" ++ sid)]
              dsimp only
              obtain ⟨e, eff, hre⟩ := routeMetaRequest_all_fail env sid hdb hdf hq hmm
              rw [hre]

/-- Witness for C2 amended: concrete valid and invalid stream requests and
the all-failing environment on the meta side. -/
theorem c2_amended_toplevel_shapes_witness :
    streamArgsValid { type := some "movie", id := none } = false ∧
    streamTopLevel envNull { type := some "movie", id := none } =
      (.errObj "INVALID_INPUT" false, {}) ∧
    streamArgsValid { type := some "movie", id := some "cc_foo-bar" } = true ∧
    (∃ r eff, streamHandle envNull { type := some "movie", id := some "cc_foo-bar" } = .ok (r, eff) ∧
      streamTopLevel envNull { type := some "movie", id := some "cc_foo-bar" } = (.streams r, eff)) ∧
    (metaHandle envNull { type := some "movie", id := some "cc_foo-bar" }).1 = none :=
  ⟨by decide,
    (c2_amended_toplevel_shapes envNull { type := some "movie", id := none }).1 (by decide),
    by decide,
    (c2_amended_toplevel_shapes envNull { type := some "movie", id := some "cc_foo-bar" }).2.1 (by decide),
    (c2_amended_toplevel_shapes envNull { type := some "movie", id := some "cc_foo-bar" }).2.2
      (fun _ => rfl) (fun _ => rfl) (fun _ => rfl) (fun _ _ _ => rfl) (fun _ => rfl)⟩

/-- C8: for a torrent with a non-empty file list, the projector emits
exactly one StreamDescriptor per file whose extension is in the supported
video set, all sharing the torrent's infoHash; when no file passes the
filter it falls back to the single-file strategy, emitting one descriptor
whose `fileIdx` is the main video file's index or 0.  The concrete
three-file torrent (2 video + 1 nfo) yields exactly two descriptors with
the same infoHash. -/
theorem c8_stream_projection :
    (∀ (m : MagnetInfo) (mv : MovieData) (id : String),
      m.files ≠ [] →
      ((m.files.filter isVideoFile ≠ [] →
        createStreamsFromTorrent m mv id
          = (m.files.filter isVideoFile).map (mkMultiFileStream m (getBingeGroupId mv id)) ∧
        (createStreamsFromTorrent m mv id).length = (m.files.filter isVideoFile).length ∧
        (∀ s ∈ createStreamsFromTorrent m mv id, s.infoHash = some m.hash)) ∧
      (m.files.filter isVideoFile = [] →
        createStreamsFromTorrent m mv id = createSingleFileStream m (getBingeGroupId mv id) ∧
        ∃ s, createStreamsFromTorrent m mv id = [s] ∧
          s.infoHash = some m.hash ∧
          s.fileIdx = some (match m.mainVideoFile with
            | some f => f.index
            | none => 0)))) ∧
    (createStreamsFromTorrent c8Torrent {} "cc_x").length = 2 ∧
    (∀ s ∈ createStreamsFromTorrent c8Torrent {} "cc_x", s.infoHash = some "abc123") := by
  refine ⟨?_, by decide, by decide⟩
  intro m mv id hfiles
  constructor
  · intro hvf
    have hmain : createStreamsFromTorrent m mv id
        = (m.files.filter isVideoFile).map (mkMultiFileStream m (getBingeGroupId mv id)) := by
      unfold createStreamsFromTorrent createMultiFileStreams
      rw [if_pos (List.length_pos.2 hfiles)]
      dsimp only
      rw [if_neg (fun hz => hvf (List.length_eq_zero.mp hz))]
    refine ⟨hmain, ?_, ?_⟩
    · rw [hmain, List.length_map]
    · intro s hs
      rw [hmain] at hs
      obtain ⟨f, _, rfl⟩ := List.mem_map.1 hs
      rfl
  · intro hvf
    have hmain : createStreamsFromTorrent m mv id
        = createSingleFileStream m (getBingeGroupId mv id) := by
      unfold createStreamsFromTorrent createMultiFileStreams
      rw [if_pos (List.length_pos.2 hfiles)]
      dsimp only
      rw [hvf, if_pos List.length_nil]
    refine ⟨hmain, ?_⟩
    rw [hmain]
    unfold createSingleFileStream
    exact ⟨_, rfl, rfl, rfl⟩

/-- Witness for C8 at the concrete three-file torrent. -/
theorem c8_stream_projection_witness :
    c8Torrent.files ≠ [] ∧
    c8Torrent.files.filter isVideoFile ≠ [] ∧
    (createStreamsFromTorrent c8Torrent {} "cc_x"
      = (c8Torrent.files.filter isVideoFile).map
          (mkMultiFileStream c8Torrent (getBingeGroupId {} "cc_x")) ∧
     (createStreamsFromTorrent c8Torrent {} "cc_x").length
        = (c8Torrent.files.filter isVideoFile).length ∧
     (∀ s ∈ createStreamsFromTorrent c8Torrent {} "cc_x",
        s.infoHash = some c8Torrent.hash)) :=
  ⟨by decide, by decide,
    (c8_stream_projection.1 c8Torrent {} "cc_x" (by decide)).1 (by decide)⟩

/-- `processLink` never writes to the stream cache. -/
theorem processLink_no_cacheWrites (env : Env) (link : DownloadLink)
    (mv : MovieData) (id : String) :
    (processLink env link mv id).2.cacheWrites = [] := by
  unfold processLink
  dsimp only
  split
  · rfl
  · split <;> rfl

/-- The `_processMagnetLinks` fold only accumulates `processLink` effects,
which carry no cache writes. -/
theorem processMagnetLinks_fold_cacheWrites (env : Env) (mv : MovieData) (id : String)
    (links : List DownloadLink) (acc : List StreamDesc × StreamEffects) :
    (links.foldl (fun acc link =>
      let r := processLink env link mv id
      (acc.1 ++ r.1, acc.2.merge r.2)) acc).2.cacheWrites = acc.2.cacheWrites := by
  induction links generalizing acc with
  | nil => rfl
  | cons l ls ih =>
      rw [List.foldl_cons, ih]
      dsimp only [StreamEffects.merge]
      rw [processLink_no_cacheWrites, List.append_nil]

/-- `_processStreams` never writes to the stream cache. -/
theorem processStreams_no_cacheWrites (env : Env) (mv : MovieData) (id : String) :
    (processStreams env mv id).2.cacheWrites = [] := by
  unfold processStreams
  split
  · rfl
  · dsimp only
    split_ifs
    · rfl
    · unfold processMagnetLinks
      exact processMagnetLinks_fold_cacheWrites env mv id _ ([], {})
    · rfl

/-- `_fetchMovieData` never writes to the stream cache. -/
theorem fetchMovieData_no_cacheWrites (env : Env) (id : String) :
    (fetchMovieData env id).2.cacheWrites = [] := by
  unfold fetchMovieData
  dsimp only
  split
  · rfl
  · rfl
  · split <;> rfl

/-- `_getMovieData` never writes to the stream cache. -/
theorem getMovieData_no_cacheWrites (env : Env) (id : String) :
    (getMovieData env id).2.cacheWrites = [] := by
  unfold getMovieData
  split
  · split_ifs
    · rfl
    · exact fetchMovieData_no_cacheWrites env id
  · exact fetchMovieData_no_cacheWrites env id

/-- C10: asymmetric empty-result caching on the stream path.  On a cache
miss, when movie data resolves the handler caches the (possibly empty)
stream list under `stream_<id>` as its sole cache write; when no movie
data resolves, `{streams: []}` is returned with no cache write; a cache
hit returns the cached response with zero collaborator calls and zero
writes. -/
theorem c10_asymmetric_empty_caching (env : Env) (id : String) (hne : id ≠ "") :
    (env.streamCache ("stream_" ++ id) = none →
      (∀ movieData eff1, getMovieData env id = (some movieData, eff1) →
        ∃ eff, streamHandle env { type := some "movie", id := some id } =
            .ok ((processStreams env movieData id).1, eff) ∧
          eff.cacheWrites = [("stream_" ++ id, (processStreams env movieData id).1)]) ∧
      (∀ eff1, getMovieData env id = (none, eff1) →
        streamHandle env { type := some "movie", id := some id } = .ok ([], eff1) ∧
        eff1.cacheWrites = [])) ∧
    (∀ cached, env.streamCache ("stream_" ++ id) = some cached →
      streamHandle env { type := some "movie", id := some id } =
        .ok (cached, ({} : StreamEffects))) := by
  have hvalid : streamArgsValid { type := some "movie", id := some id } = true := by
    simp [streamArgsValid, hne]
  have hsh : streamHandle env { type := some "movie", id := some id } =
      (match env.streamCache ("stream_" ++ id) with
       | some cached => .ok (cached, {})
       | none =>
           match getMovieData env id with
           | (none, eff1) => .ok ([], eff1)
           | (some movieData, eff1) =>
               let pr := processStreams env movieData id
               let eff := eff1.merge pr.2
               .ok (pr.1,
                { eff with cacheWrites := eff.cacheWrites ++ [("stream_" ++ id, pr.1)] })) := by
    unfold streamHandle
    rw [hvalid, if_neg (by simp : ¬((!true) = true))]
    simp only [Option.getD_some]
    rw [if_neg (by simp : ¬(("movie" : String) ≠ "movie"))]
  constructor
  · intro hmiss
    constructor
    · intro movieData eff1 hmd
      rw [hsh, hmiss]
      dsimp only
      rw [hmd]
      dsimp only
      refine ⟨_, rfl, ?_⟩
      have h1 : eff1.cacheWrites = [] := by
        have := getMovieData_no_cacheWrites env id
        rw [hmd] at this
        exact this
      dsimp only [StreamEffects.merge]
      rw [h1, processStreams_no_cacheWrites, List.append_nil, List.nil_append]
    · intro eff1 hmd
      rw [hsh, hmiss]
      dsimp only
      rw [hmd]
      refine ⟨rfl, ?_⟩
      have := getMovieData_no_cacheWrites env id
      rw [hmd] at this
      exact this
  · intro cached hhit
    rw [hsh, hhit]

/-- Witness for C10: `envC10` resolves `cc_z` from the store with zero
download links, so the empty stream list itself is cached. -/
theorem c10_asymmetric_empty_caching_witness :
    (processStreams envC10 c10Rec "cc_z").1 = [] ∧
    getMovieData envC10 "cc_z" = (some c10Rec, {}) ∧
    ∃ eff, streamHandle envC10 { type := some "movie", id := some "cc_z" } =
        .ok ((processStreams envC10 c10Rec "cc_z").1, eff) ∧
      eff.cacheWrites = [("stream_" ++ "cc_z", (processStreams envC10 c10Rec "cc_z").1)] :=
  ⟨by decide, by decide,
    ((c10_asymmetric_empty_caching envC10 "cc_z" (by decide)).1 rfl).1 c10Rec {} (by decide)⟩

end Cinecalidad
